import Mathlib

/-!
Shallow embedding of the stereo-SLAM tracking front-end
(`src/localization/tracking.cpp`, class `slam::Tracking`).

External collaborators (tf transform tree, OpenCV matcher and
`solvePnPRansac`, the `Frame` feature extractor, world-point computation
and clustering, the `Map` and `Graph` sinks) are modelled as oracle
functions collected in an `Env` record; the tracking code itself only
passes their results around, so this is faithful to the source.

Machine floats (descriptor distances, reprojection thresholds) are
modelled as exact rationals; tf transforms are an abstract carrier with
composition, inverse and identity supplied by the environment.
-/

namespace StereoSlam

/-- Opaque payloads of the ROS messages: the tracking code never inspects
images or camera-info records, it only hands them to collaborators. -/
abbrev Image := Nat

abbrev CamInfo := Nat

/-- Abstraction of a `nav_msgs::Odometry` sample (converted to a transform
by `Tools::odomTotf`, an external helper). -/
abbrev Odom := Int

/-- Carrier for `tf::Transform` / `tf::StampedTransform` values.  The
tracking code only composes, inverts and stores transforms, so any
carrier with the `Env`-supplied operations is faithful. -/
abbrev Transform := Int

/-- Opaque camera model handle (`image_geometry::StereoCameraModel`). -/
abbrev CameraModel := Nat

/-- Camera matrix (`cv::Mat` holding intrinsics), entries as rationals. -/
abbrev Mat := List (List Rat)

/-- One feature descriptor (a row of the descriptor `cv::Mat`). -/
abbrev Desc := Nat

/-- A 2-D keypoint position (`cv::Point2f`), exact rationals for floats. -/
abbrev Point2 := Rat × Rat

/-- A 3-D point (`cv::Point3f`), exact rationals for floats. -/
abbrev Point3 := Rat × Rat × Rat

/-- Rotation / translation vector (`cv::Mat` rvec / tvec of `solvePnPRansac`). -/
abbrev Vec3 := Rat × Rat × Rat

/-- A `cv::DMatch` as used by the matching loop: query index (current
frame), train index (fixed frame) and descriptor distance. -/
structure DMatch where
  queryIdx : Nat
  trainIdx : Nat
  distance : Rat
deriving DecidableEq

/-- The ratio of the Lowe-style distinctiveness filter; the source sets
`const double ratio = 0.9`. -/
def ratioVal : Rat := 9 / 10

/-- The match-filter loop of `Tracking::trackCurrentFrame`
(tracking.cpp lines 138-143): for each knn bucket, skip it when it holds
fewer than two neighbours, otherwise keep the first match exactly when
`knn_matches[m][0].distance <= knn_matches[m][1].distance * ratio`. -/
def filterMatches : List (List DMatch) → List DMatch
  | [] => []
  | km :: rest =>
    match km with
    | a :: b :: _ =>
      if a.distance ≤ b.distance * ratioVal then a :: filterMatches rest
      else filterMatches rest
    | _ => filterMatches rest

/-- Modelled from the spec (§4.3, §8 "Ratio-test correctness"): accept a
bucket's nearest neighbour iff its distance `d1` satisfies
`d1 <= 0.9 * d2` for second-nearest distance `d2`; buckets with fewer
than two candidates are skipped.  Stated per-bucket so that mapping it
over the knn output in bucket order expresses the spec's ordering and
no-deduplication guarantees. -/
def specRatioAccept (km : List DMatch) : Option DMatch :=
  match km with
  | a :: b :: _ => if a.distance ≤ (9 / 10) * b.distance then some a else none
  | _ => none

/-- The `Frame` snapshot consumed by the tracker, holding the accessors
the tracking code reads (`getLeftDesc`, `getLeftKp`, `getCameraPoints`)
and the two setters it calls (`setOdometryPose`, `setInliers`).

Modelled from the spec: the `Frame` implementation is not under `src/`
(the spec lists it as an external entity, §2/§6); per §3 a frame is an
"immutable-after-construction snapshot" apart from the inlier count, so
`computeWorldPoints` / `clusterWorldpoints` do not alter these snapshot
fields — their product (the clustered world-point set) is modelled as a
value derived from the frame (`worldPointsOf`) and recorded with every
`Map::addPoints` call. -/
structure Frame where
  leftDesc : List Desc
  leftKp : List Point2
  cameraPoints : List Point3
  odometryPose : Transform
  inliers : Nat
deriving DecidableEq

/-- Argument record of a `cv::solvePnPRansac` invocation, one field per
argument the source passes (tracking.cpp lines 168-171); the `Mat()`
distortion argument is constant and elided.  `rvecIn`/`tvecIn` are the
in/out pose buffers as passed in (read by the solver when `useGuess`). -/
structure SolveArgs where
  objectPoints : List Point3
  imagePoints : List Point2
  cameraMatrix : Mat
  useGuess : Bool
  rvecIn : Vec3
  tvecIn : Vec3
  iterationsCount : Nat
  reprojectionError : Rat
  minInliersCount : Nat
deriving DecidableEq

/-- Environment of external collaborators and configuration constants.
`MIN_INLIERS` / `MAX_INLIERS` are configuration constants defined in the
header (not under `src/`); per spec §9 they are treated as tunable
parameters.  `solvePnP` returns (rvec, tvec, inlier index set). -/
structure Env where
  MIN_INLIERS : Nat
  MAX_INLIERS : Nat
  odomToTf : Odom → Transform
  tfCompose : Transform → Transform → Transform
  tfInverse : Transform → Transform
  tfIdentity : Transform
  getCameraModel : CamInfo → CamInfo → CameraModel × Mat
  extract : Image → Image → CameraModel → List Desc × List Point2 × List Point3
  knnMatch : List Desc → List Desc → Nat → List (List DMatch)
  solvePnP : SolveArgs → Vec3 × Vec3 × List Nat
  computeWorldPoints : Frame → List Point3
  clusterWorldPoints : List Point3 → List Point3

/-- Frame construction `Frame(l_img, r_img, camera_model_)`: feature
extraction is the frame's own job, modelled by `Env.extract`.  The C++
constructor leaves the odometry pose unset; the model uses the zero
transform, and every construction site overwrites it at once via
`setOdometryPose`. -/
def mkFrame (E : Env) (l r : Image) (cm : CameraModel) : Frame :=
  { leftDesc := (E.extract l r cm).1
    leftKp := (E.extract l r cm).2.1
    cameraPoints := (E.extract l r cm).2.2
    odometryPose := 0
    inliers := 0 }

/-- The clustered world points a frame contributes to the map:
`f.computeWorldPoints(); f.clusterWorldpoints(); map_.addPoints(f)`
(tracking.cpp lines 189-191 and 203-205). -/
def worldPointsOf (E : Env) (f : Frame) : List Point3 :=
  E.clusterWorldPoints (E.computeWorldPoints f)

/-- The tracking state enum of `Tracking` (NOT_INITIALIZED, INITIALIZING,
WORKING). -/
inductive TrackState
  | NOT_INITIALIZED
  | INITIALIZING
  | WORKING
deriving DecidableEq

/-- Member state of the `Tracking` object: the fields of tracking.cpp
that the embedded member functions read or write.  `mapPoints` records
each `map_.addPoints` call as (frame passed, its clustered world
points). -/
structure Tracking where
  state : TrackState
  fFrame : Frame
  cFrame : Frame
  odom2camera : Transform
  cameraModel : CameraModel
  cameraMatrix : Mat
  rvec : Vec3
  tvec : Vec3
  resetFixedFrame : Bool
  matches_ : List DMatch
  inliers_ : List Nat
  mapPoints : List (Frame × List Point3)
deriving DecidableEq

/-- Per-cycle record of the outward calls a `msgsCallback` invocation
makes: whether `tf_listener_.lookupTransform` is queried, the
`solvePnPRansac` argument record when the solver runs, and the values
handed to `graph_->setCamera2Odom` / `graph_->setCameraMatrix`. -/
structure CycleLog where
  tfQueried : Bool
  solveArgs : Option SolveArgs
  graphCamera2Odom : Option Transform
  graphCameraMatrix : Option Mat
deriving DecidableEq

/-- Embeds `Tracking::trackCurrentFrame` (tracking.cpp lines 117-175): clear the
per-cycle buffers, run the knn matcher (k = 2) and the ratio filter; if
fewer than `MIN_INLIERS` matches remain, record zero inliers on the
current frame and skip the solver; otherwise gather the matched fixed
2-D keypoints and current 3-D points and call `solvePnPRansac` with the
extrinsic guess suppressed exactly when `reset_fixed_frame_` is set.
(The source also builds `f_matched_3d_points`, which is dead there and
not passed to the solver.)  Returns the updated member state and the
solver argument record when the solver ran. -/
def trackCurrentFrame (E : Env) (s0 : Tracking) : Tracking × Option SolveArgs :=
  let s := { s0 with matches_ := [], inliers_ := [] }
  let ms := filterMatches (E.knnMatch s.cFrame.leftDesc s.fFrame.leftDesc 2)
  if ms.length < E.MIN_INLIERS then
    ({ s with matches_ := ms, cFrame := { s.cFrame with inliers := 0 } }, none)
  else
    let fMatchedKp := ms.map fun m => s.fFrame.leftKp.getD m.trainIdx (0, 0)
    let cMatched3d := ms.map fun m => s.cFrame.cameraPoints.getD m.queryIdx (0, 0, 0)
    let args : SolveArgs :=
      { objectPoints := cMatched3d
        imagePoints := fMatchedKp
        cameraMatrix := s.cameraMatrix
        useGuess := !s.resetFixedFrame
        rvecIn := s.rvec
        tvecIn := s.tvec
        iterationsCount := 100
        reprojectionError := 13 / 10
        minInliersCount := E.MAX_INLIERS }
    let r := E.solvePnP args
    ({ s with
        matches_ := ms
        rvec := r.1
        tvec := r.2.1
        inliers_ := r.2.2
        cFrame := { s.cFrame with inliers := r.2.2.length } }, some args)

/-- The post-initialization tail of `Tracking::needNewFixedFrame`
(tracking.cpp lines 198-211): on insufficient inliers raise the reset
flag, promote the current frame to fixed frame and grow the map with its
world points; otherwise clear the reset flag. -/
def resetFixedFrameCheck (E : Env) (s : Tracking) : Tracking :=
  if s.inliers_.length < E.MIN_INLIERS then
    { s with
        resetFixedFrame := true
        fFrame := s.cFrame
        mapPoints := s.mapPoints ++ [(s.cFrame, worldPointsOf E s.cFrame)] }
  else
    { s with resetFixedFrame := false }

/-- Embeds `Tracking::needNewFixedFrame` (tracking.cpp lines 177-212): during
`INITIALIZING`, insufficient inliers replace the fixed frame and return
early (no map growth, no reset flag); sufficient inliers grow the map
with the retained fixed frame's world points and move to `WORKING`,
falling through to the post-initialization check. -/
def needNewFixedFrame (E : Env) (s : Tracking) : Tracking :=
  if s.state = TrackState.INITIALIZING then
    if s.inliers_.length < E.MIN_INLIERS then
      { s with fFrame := s.cFrame }
    else
      resetFixedFrameCheck E
        { s with
            mapPoints := s.mapPoints ++ [(s.fFrame, worldPointsOf E s.fFrame)]
            state := TrackState.WORKING }
  else
    resetFixedFrameCheck E s

/-- Embeds `Tracking::msgsCallback` (tracking.cpp lines 42-92) together with
`Tracking::getOdom2CameraTf` (lines 94-115).  The tf lookup's outcome for
this message set is carried by the input (`tfLookup`), since the
transform tree is an external, time-varying service; `getOdom2CameraTf`
first writes the identity into the out-parameter `odom2camera_` and
overwrites it on a successful lookup. -/
structure Input where
  odom : Odom
  lImg : Image
  rImg : Image
  lInfo : CamInfo
  rInfo : CamInfo
  tfLookup : Option Transform
deriving DecidableEq

/-- The current frame built by the post-initialization branch of the
callback (tracking.cpp lines 82-86): features from the new stereo pair
and the session camera model, stamped with the odometry-derived camera
pose `c_odom_robot * odom2camera_`. -/
def currentFrameOf (E : Env) (s : Tracking) (i : Input) : Frame :=
  { mkFrame E i.lImg i.rImg s.cameraModel with
      odometryPose := E.tfCompose (E.odomToTf i.odom) s.odom2camera }

/-- One synchronized-callback cycle: the `NOT_INITIALIZED` branch resolves
the session transform, camera model and initial fixed frame (or discards
the input on lookup failure); afterwards each cycle builds the current
frame, runs `trackCurrentFrame` and delegates to `needNewFixedFrame`. -/
def msgsCallback (E : Env) (s : Tracking) (i : Input) : Tracking × CycleLog :=
  let cOdomRobot := E.odomToTf i.odom
  if s.state = TrackState.NOT_INITIALIZED then
    match i.tfLookup with
    | none =>
      ({ s with odom2camera := E.tfIdentity },
       { tfQueried := true
         solveArgs := none
         graphCamera2Odom := none
         graphCameraMatrix := none })
    | some t =>
      let cm := E.getCameraModel i.lInfo i.rInfo
      let f0 := mkFrame E i.lImg i.rImg cm.1
      ({ s with
          odom2camera := t
          cameraModel := cm.1
          cameraMatrix := cm.2
          fFrame := { f0 with odometryPose := E.tfCompose cOdomRobot t }
          state := TrackState.INITIALIZING },
       { tfQueried := true
         solveArgs := none
         graphCamera2Odom := some (E.tfInverse t)
         graphCameraMatrix := some cm.2 })
  else
    let p := trackCurrentFrame E { s with cFrame := currentFrameOf E s i }
    (needNewFixedFrame E p.1,
     { tfQueried := false
       solveArgs := p.2
       graphCamera2Odom := none
       graphCameraMatrix := none })

/-- Short-circuit branch of `trackCurrentFrame`: fewer accepted matches
than `MIN_INLIERS` records the filtered match list, an empty inlier
vector and a zero inlier count, and skips the solver. -/
theorem trackCurrentFrame_short (E : Env) (t : Tracking)
    (h : (filterMatches (E.knnMatch t.cFrame.leftDesc t.fFrame.leftDesc 2)).length <
      E.MIN_INLIERS) :
    trackCurrentFrame E t =
      ({ t with
          matches_ := filterMatches (E.knnMatch t.cFrame.leftDesc t.fFrame.leftDesc 2)
          inliers_ := []
          cFrame := { t.cFrame with inliers := 0 } }, none) := by
  simp only [trackCurrentFrame]
  rw [if_pos h]

/-- Solver branch of `trackCurrentFrame`: with enough accepted matches the
solver is called on the matched current-frame 3-D points and fixed-frame
2-D keypoints, with the guess enabled iff the reset flag is clear, and
its outputs land in `rvec_`, `tvec_`, `inliers_` and the current frame's
inlier count. -/
theorem trackCurrentFrame_go (E : Env) (t : Tracking)
    (h : ¬ (filterMatches (E.knnMatch t.cFrame.leftDesc t.fFrame.leftDesc 2)).length <
      E.MIN_INLIERS) :
    trackCurrentFrame E t =
      (let ms := filterMatches (E.knnMatch t.cFrame.leftDesc t.fFrame.leftDesc 2)
       let args : SolveArgs :=
        { objectPoints := ms.map fun m => t.cFrame.cameraPoints.getD m.queryIdx (0, 0, 0)
          imagePoints := ms.map fun m => t.fFrame.leftKp.getD m.trainIdx (0, 0)
          cameraMatrix := t.cameraMatrix
          useGuess := !t.resetFixedFrame
          rvecIn := t.rvec
          tvecIn := t.tvec
          iterationsCount := 100
          reprojectionError := 13 / 10
          minInliersCount := E.MAX_INLIERS }
       ({ t with
            matches_ := ms
            rvec := (E.solvePnP args).1
            tvec := (E.solvePnP args).2.1
            inliers_ := (E.solvePnP args).2.2
            cFrame := { t.cFrame with inliers := (E.solvePnP args).2.2.length } },
        some args)) := by
  simp only [trackCurrentFrame]
  rw [if_neg h]

/-- The `INITIALIZING` early-return branch of `needNewFixedFrame`:
insufficient inliers replace the fixed frame by the current one and
change nothing else (no reset flag, no map growth, same state). -/
theorem needNewFixedFrame_init_low (E : Env) (t : Tracking)
    (h1 : t.state = TrackState.INITIALIZING)
    (h2 : t.inliers_.length < E.MIN_INLIERS) :
    needNewFixedFrame E t = { t with fFrame := t.cFrame } := by
  simp only [needNewFixedFrame]
  rw [if_pos h1, if_pos h2]

/-- The `INITIALIZING` transition branch of `needNewFixedFrame`: enough
inliers grow the map with the retained fixed frame's world points, move
to `WORKING` and clear the reset flag. -/
theorem needNewFixedFrame_init_high (E : Env) (t : Tracking)
    (h1 : t.state = TrackState.INITIALIZING)
    (h2 : ¬ t.inliers_.length < E.MIN_INLIERS) :
    needNewFixedFrame E t =
      { t with
          mapPoints := t.mapPoints ++ [(t.fFrame, worldPointsOf E t.fFrame)]
          state := TrackState.WORKING
          resetFixedFrame := false } := by
  simp only [needNewFixedFrame, resetFixedFrameCheck]
  rw [if_pos h1, if_neg h2, if_neg h2]

/-- The post-initialization replacement branch of `needNewFixedFrame`:
insufficient inliers raise the reset flag, promote the current frame and
grow the map with its world points. -/
theorem needNewFixedFrame_work_low (E : Env) (t : Tracking)
    (h1 : ¬ t.state = TrackState.INITIALIZING)
    (h2 : t.inliers_.length < E.MIN_INLIERS) :
    needNewFixedFrame E t =
      { t with
          resetFixedFrame := true
          fFrame := t.cFrame
          mapPoints := t.mapPoints ++ [(t.cFrame, worldPointsOf E t.cFrame)] } := by
  simp only [needNewFixedFrame, resetFixedFrameCheck]
  rw [if_neg h1, if_pos h2]

/-- The post-initialization retention branch of `needNewFixedFrame`:
enough inliers only clear the reset flag. -/
theorem needNewFixedFrame_work_high (E : Env) (t : Tracking)
    (h1 : ¬ t.state = TrackState.INITIALIZING)
    (h2 : ¬ t.inliers_.length < E.MIN_INLIERS) :
    needNewFixedFrame E t = { t with resetFixedFrame := false } := by
  simp only [needNewFixedFrame, resetFixedFrameCheck]
  rw [if_neg h1, if_neg h2]

/-- Lemma: `needNewFixedFrame` never touches the per-cycle buffers, the camera
data, the session transform or the pose estimate. -/
theorem needNewFixedFrame_preserves (E : Env) (t : Tracking) :
    (needNewFixedFrame E t).inliers_ = t.inliers_ ∧
    (needNewFixedFrame E t).matches_ = t.matches_ ∧
    (needNewFixedFrame E t).cFrame = t.cFrame ∧
    (needNewFixedFrame E t).cameraModel = t.cameraModel ∧
    (needNewFixedFrame E t).cameraMatrix = t.cameraMatrix ∧
    (needNewFixedFrame E t).odom2camera = t.odom2camera ∧
    (needNewFixedFrame E t).rvec = t.rvec ∧
    (needNewFixedFrame E t).tvec = t.tvec := by
  simp only [needNewFixedFrame, resetFixedFrameCheck]
  split <;> split <;> simp

/-- Lemma: `trackCurrentFrame` never touches the fixed frame, the state, the map,
the reset flag, the camera data or the session transform, and the
current frame keeps everything but its inlier count. -/
theorem trackCurrentFrame_preserves (E : Env) (t : Tracking) :
    ((trackCurrentFrame E t).1).fFrame = t.fFrame ∧
    ((trackCurrentFrame E t).1).state = t.state ∧
    ((trackCurrentFrame E t).1).mapPoints = t.mapPoints ∧
    ((trackCurrentFrame E t).1).resetFixedFrame = t.resetFixedFrame ∧
    ((trackCurrentFrame E t).1).cameraModel = t.cameraModel ∧
    ((trackCurrentFrame E t).1).cameraMatrix = t.cameraMatrix ∧
    ((trackCurrentFrame E t).1).odom2camera = t.odom2camera ∧
    ((trackCurrentFrame E t).1).cFrame.leftDesc = t.cFrame.leftDesc ∧
    ((trackCurrentFrame E t).1).cFrame.leftKp = t.cFrame.leftKp ∧
    ((trackCurrentFrame E t).1).cFrame.cameraPoints = t.cFrame.cameraPoints ∧
    ((trackCurrentFrame E t).1).cFrame.odometryPose = t.cFrame.odometryPose := by
  simp only [trackCurrentFrame]
  split <;> simp

/-- State after one callback cycle. -/
def cycleState (E : Env) (s : Tracking) (i : Input) : Tracking :=
  (msgsCallback E s i).1

/-- Outward-call record of one callback cycle. -/
def cycleLog (E : Env) (s : Tracking) (i : Input) : CycleLog :=
  (msgsCallback E s i).2

/-- Post-initialization cycles are exactly `trackCurrentFrame` followed by
`needNewFixedFrame` on the state holding the freshly built current
frame; they never query the transform tree or call the graph setters. -/
theorem msgsCallback_post (E : Env) (s : Tracking) (i : Input)
    (hs : ¬ s.state = TrackState.NOT_INITIALIZED) :
    msgsCallback E s i =
      (needNewFixedFrame E (trackCurrentFrame E { s with cFrame := currentFrameOf E s i }).1,
       { tfQueried := false
         solveArgs := (trackCurrentFrame E { s with cFrame := currentFrameOf E s i }).2
         graphCamera2Odom := none
         graphCameraMatrix := none }) := by
  simp only [msgsCallback]
  rw [if_neg hs]

/-- A failed transform lookup while `NOT_INITIALIZED` only resets the
lookup out-parameter to the identity and discards the input. -/
theorem msgsCallback_notinit_fail (E : Env) (s : Tracking) (i : Input)
    (hs : s.state = TrackState.NOT_INITIALIZED)
    (hl : i.tfLookup = none) :
    msgsCallback E s i =
      ({ s with odom2camera := E.tfIdentity },
       { tfQueried := true
         solveArgs := none
         graphCamera2Odom := none
         graphCameraMatrix := none }) := by
  simp only [msgsCallback]
  rw [if_pos hs, hl]

/-- A successful transform lookup while `NOT_INITIALIZED` caches the
session transform, derives the camera model and matrix, hands both to
the graph, seeds the fixed frame and moves to `INITIALIZING`. -/
theorem msgsCallback_notinit_ok (E : Env) (s : Tracking) (i : Input) (tr : Transform)
    (hs : s.state = TrackState.NOT_INITIALIZED)
    (hl : i.tfLookup = some tr) :
    msgsCallback E s i =
      ({ s with
          odom2camera := tr
          cameraModel := (E.getCameraModel i.lInfo i.rInfo).1
          cameraMatrix := (E.getCameraModel i.lInfo i.rInfo).2
          fFrame := { mkFrame E i.lImg i.rImg (E.getCameraModel i.lInfo i.rInfo).1 with
                        odometryPose := E.tfCompose (E.odomToTf i.odom) tr }
          state := TrackState.INITIALIZING },
       { tfQueried := true
         solveArgs := none
         graphCamera2Odom := some (E.tfInverse tr)
         graphCameraMatrix := some (E.getCameraModel i.lInfo i.rInfo).2 }) := by
  simp only [msgsCallback]
  rw [if_pos hs, hl]

/-- Rewrite lemma for reducing state-dispatch conditionals. -/
theorem trackStateNe_init_notinit :
    (TrackState.INITIALIZING = TrackState.NOT_INITIALIZED) = False := by
  simp

/-- Rewrite lemma for reducing state-dispatch conditionals. -/
theorem trackStateNe_work_notinit :
    (TrackState.WORKING = TrackState.NOT_INITIALIZED) = False := by
  simp

/-- Rewrite lemma for reducing state-dispatch conditionals. -/
theorem trackStateNe_work_init :
    (TrackState.WORKING = TrackState.INITIALIZING) = False := by
  simp

/-- Concrete environment used to witness the theorems on explicit inputs:
one descriptor per frame (the left-image id), a matcher that returns one
two-candidate bucket per query descriptor except for image 9 (no
buckets), and a solver that reports a single inlier. -/
def testEnv : Env :=
  { MIN_INLIERS := 1
    MAX_INLIERS := 50
    odomToTf := fun o => o
    tfCompose := fun a b => a + b
    tfInverse := fun a => -a
    tfIdentity := 0
    getCameraModel := fun l r => (l + r, [[1, 0], [0, 1]])
    extract := fun l _ _ => ([l], [(1, 2)], [(3, 4, 5)])
    knnMatch := fun c _ _ =>
      if c = [9] then [] else c.map fun _ => [⟨0, 0, 0⟩, ⟨0, 0, 0⟩]
    solvePnP := fun a => ((1, 1, 1), (2, 2, 2), if a.objectPoints = [] then [] else [0])
    computeWorldPoints := fun f => f.cameraPoints
    clusterWorldPoints := fun l => l }

/-- A frame with no content, standing for the default-constructed members
before the first callback (never read before being overwritten). -/
def emptyFrame : Frame :=
  { leftDesc := [], leftKp := [], cameraPoints := [], odometryPose := 0, inliers := 0 }

/-- The member state after the constructor and the start of `run()`:
`state_ = NOT_INITIALIZED`, `reset_fixed_frame_ = false`; the remaining
members are default-constructed and never read before assignment. -/
def initialTracking : Tracking :=
  { state := TrackState.NOT_INITIALIZED
    fFrame := emptyFrame
    cFrame := emptyFrame
    odom2camera := 0
    cameraModel := 0
    cameraMatrix := []
    rvec := (0, 0, 0)
    tvec := (0, 0, 0)
    resetFixedFrame := false
    matches_ := []
    inliers_ := []
    mapPoints := [] }

/-- First message set, with a resolvable transform. -/
def inpInit : Input :=
  { odom := 1, lImg := 2, rImg := 3, lInfo := 4, rInfo := 5, tfLookup := some 7 }

/-- A message set whose transform lookup fails. -/
def inpFail : Input :=
  { odom := 1, lImg := 2, rImg := 3, lInfo := 4, rInfo := 5, tfLookup := none }

/-- A message set that matches well under `testEnv` (image 3 yields one
accepted correspondence and one solver inlier). -/
def inpRich : Input :=
  { odom := 2, lImg := 3, rImg := 4, lInfo := 5, rInfo := 6, tfLookup := none }

/-- A message set that matches badly under `testEnv` (image 9 yields no
knn buckets, hence the sparse-correspondence short-circuit). -/
def inpSparse : Input :=
  { odom := 3, lImg := 9, rImg := 4, lInfo := 5, rInfo := 6, tfLookup := none }

/-- The matches buffer after `trackCurrentFrame` always holds the
ratio-filtered knn output for the current/fixed descriptor pair. -/
theorem trackCurrentFrame_matches (E : Env) (t : Tracking) :
    ((trackCurrentFrame E t).1).matches_ =
      filterMatches (E.knnMatch t.cFrame.leftDesc t.fFrame.leftDesc 2) := by
  simp only [trackCurrentFrame]
  split <;> rfl

/-- Lemma: `needNewFixedFrame` either keeps the state or moves it to `WORKING`. -/
theorem needNewFixedFrame_state (E : Env) (t : Tracking) :
    (needNewFixedFrame E t).state = t.state ∨
    (needNewFixedFrame E t).state = TrackState.WORKING := by
  simp only [needNewFixedFrame, resetFixedFrameCheck]
  split <;> split <;> simp

/-- State after the initialization cycle: `INITIALIZING`. -/
def stInit : Tracking := cycleState testEnv initialTracking inpInit

/-- State after the bootstrap cycle that meets the threshold: `WORKING`. -/
def stWork : Tracking := cycleState testEnv stInit inpRich

/-- C1: for every cycle entered in state `INITIALIZING` or `WORKING`, an
inlier count below `MIN_INLIERS` from the cycle's motion estimation
replaces the fixed frame by the cycle's current frame (by value), and an
inlier count at or above the threshold leaves the fixed frame exactly as
it was before the cycle. -/
theorem fixedFramePolicy_cycle (E : Env) (s : Tracking) (i : Input)
    (hs : s.state = TrackState.INITIALIZING ∨ s.state = TrackState.WORKING) :
    ((cycleState E s i).inliers_.length < E.MIN_INLIERS →
      (cycleState E s i).fFrame = (cycleState E s i).cFrame) ∧
    (E.MIN_INLIERS ≤ (cycleState E s i).inliers_.length →
      (cycleState E s i).fFrame = s.fFrame) := by
  have hns : ¬ s.state = TrackState.NOT_INITIALIZED := by
    rcases hs with h | h <;> rw [h] <;> simp
  have hcb : cycleState E s i =
      needNewFixedFrame E (trackCurrentFrame E { s with cFrame := currentFrameOf E s i }).1 := by
    simp only [cycleState, msgsCallback_post E s i hns]
  rw [hcb]
  set t := (trackCurrentFrame E { s with cFrame := currentFrameOf E s i }).1 with ht
  have hts : t.state = s.state := (trackCurrentFrame_preserves E _).2.1
  have htf : t.fFrame = s.fFrame := (trackCurrentFrame_preserves E _).1
  have hni : (needNewFixedFrame E t).inliers_ = t.inliers_ :=
    (needNewFixedFrame_preserves E t).1
  constructor
  · intro hlt
    rw [hni] at hlt
    rcases hs with h | h
    · rw [needNewFixedFrame_init_low E t (hts.trans h) hlt]
    · rw [needNewFixedFrame_work_low E t (by rw [hts, h]; simp) hlt]
  · intro hge
    rw [hni] at hge
    have hnlt := Nat.not_lt.mpr hge
    rcases hs with h | h
    · rw [needNewFixedFrame_init_high E t (hts.trans h) hnlt]
      exact htf
    · rw [needNewFixedFrame_work_high E t (by rw [hts, h]; simp) hnlt]
      exact htf

/-- Fixture fact: the initialization cycle ends in `INITIALIZING`. -/
theorem stInit_state : stInit.state = TrackState.INITIALIZING := by
  simp [stInit, cycleState, msgsCallback, mkFrame, testEnv, initialTracking, emptyFrame,
    inpInit]

/-- Fixture fact: the bootstrap cycle on `inpRich` ends in `WORKING`. -/
theorem stWork_state : stWork.state = TrackState.WORKING := by
  simp [stWork, stInit, cycleState, msgsCallback, trackCurrentFrame, needNewFixedFrame,
    resetFixedFrameCheck, currentFrameOf, mkFrame, filterMatches, ratioVal, worldPointsOf,
    testEnv, initialTracking, emptyFrame, inpInit, inpRich]

/-- Fixture fact: from `stWork`, the sparse input yields an inlier count
below the threshold. -/
theorem stWork_sparse_low :
    (cycleState testEnv stWork inpSparse).inliers_.length < testEnv.MIN_INLIERS := by
  simp [stWork, stInit, cycleState, msgsCallback, trackCurrentFrame, needNewFixedFrame,
    resetFixedFrameCheck, currentFrameOf, mkFrame, filterMatches, ratioVal, worldPointsOf,
    testEnv, initialTracking, emptyFrame, inpInit, inpRich, inpSparse]

/-- Fixture fact: from `stInit`, the rich input yields an inlier count at
or above the threshold. -/
theorem stInit_rich_high :
    testEnv.MIN_INLIERS ≤ (cycleState testEnv stInit inpRich).inliers_.length := by
  simp [stInit, cycleState, msgsCallback, trackCurrentFrame, needNewFixedFrame,
    resetFixedFrameCheck, currentFrameOf, mkFrame, filterMatches, ratioVal, worldPointsOf,
    testEnv, initialTracking, emptyFrame, inpInit, inpRich]

/-- Witness for C1 at a concrete `WORKING`-state cycle. -/
theorem fixedFramePolicy_cycle_witness :
    (stWork.state = TrackState.INITIALIZING ∨ stWork.state = TrackState.WORKING) ∧
    (((cycleState testEnv stWork inpSparse).inliers_.length < testEnv.MIN_INLIERS →
        (cycleState testEnv stWork inpSparse).fFrame =
          (cycleState testEnv stWork inpSparse).cFrame) ∧
      (testEnv.MIN_INLIERS ≤ (cycleState testEnv stWork inpSparse).inliers_.length →
        (cycleState testEnv stWork inpSparse).fFrame = stWork.fFrame)) :=
  ⟨Or.inr stWork_state,
   fixedFramePolicy_cycle testEnv stWork inpSparse (Or.inr stWork_state)⟩

/-- C2: the `INITIALIZING` to `WORKING` transition happens exactly on the
first cycle whose inlier count reaches `MIN_INLIERS` — a bootstrap cycle
below the threshold stays in `INITIALIZING` with no map growth, the
threshold-meeting cycle moves to `WORKING` and grows the map, `WORKING`
is absorbing, and `NOT_INITIALIZED` never jumps straight to `WORKING`. -/
theorem bootstrapTransition_cycle (E : Env) (s : Tracking) (i : Input) :
    (s.state = TrackState.INITIALIZING →
      (cycleState E s i).inliers_.length < E.MIN_INLIERS →
        (cycleState E s i).state = TrackState.INITIALIZING ∧
        (cycleState E s i).mapPoints = s.mapPoints) ∧
    (s.state = TrackState.INITIALIZING →
      E.MIN_INLIERS ≤ (cycleState E s i).inliers_.length →
        (cycleState E s i).state = TrackState.WORKING ∧
        (cycleState E s i).mapPoints =
          s.mapPoints ++ [(s.fFrame, worldPointsOf E s.fFrame)]) ∧
    (s.state = TrackState.WORKING → (cycleState E s i).state = TrackState.WORKING) ∧
    (s.state = TrackState.NOT_INITIALIZED →
      ¬ (cycleState E s i).state = TrackState.WORKING) := by
  refine ⟨?_, ?_, ?_, ?_⟩
  · intro h hlt
    have hns : ¬ s.state = TrackState.NOT_INITIALIZED := by rw [h]; simp
    have hcb : cycleState E s i =
        needNewFixedFrame E (trackCurrentFrame E { s with cFrame := currentFrameOf E s i }).1 := by
      simp only [cycleState, msgsCallback_post E s i hns]
    rw [hcb] at hlt ⊢
    set t := (trackCurrentFrame E { s with cFrame := currentFrameOf E s i }).1 with ht
    have hts : t.state = s.state := (trackCurrentFrame_preserves E _).2.1
    have htm : t.mapPoints = s.mapPoints := (trackCurrentFrame_preserves E _).2.2.1
    rw [(needNewFixedFrame_preserves E t).1] at hlt
    rw [needNewFixedFrame_init_low E t (hts.trans h) hlt]
    exact ⟨hts.trans h, htm⟩
  · intro h hge
    have hns : ¬ s.state = TrackState.NOT_INITIALIZED := by rw [h]; simp
    have hcb : cycleState E s i =
        needNewFixedFrame E (trackCurrentFrame E { s with cFrame := currentFrameOf E s i }).1 := by
      simp only [cycleState, msgsCallback_post E s i hns]
    rw [hcb] at hge ⊢
    set t := (trackCurrentFrame E { s with cFrame := currentFrameOf E s i }).1 with ht
    have hts : t.state = s.state := (trackCurrentFrame_preserves E _).2.1
    have htf : t.fFrame = s.fFrame := (trackCurrentFrame_preserves E _).1
    have htm : t.mapPoints = s.mapPoints := (trackCurrentFrame_preserves E _).2.2.1
    rw [(needNewFixedFrame_preserves E t).1] at hge
    rw [needNewFixedFrame_init_high E t (hts.trans h) (Nat.not_lt.mpr hge)]
    refine ⟨rfl, ?_⟩
    show t.mapPoints ++ [(t.fFrame, worldPointsOf E t.fFrame)] = _
    rw [htm, htf]
  · intro h
    have hns : ¬ s.state = TrackState.NOT_INITIALIZED := by rw [h]; simp
    have hcb : cycleState E s i =
        needNewFixedFrame E (trackCurrentFrame E { s with cFrame := currentFrameOf E s i }).1 := by
      simp only [cycleState, msgsCallback_post E s i hns]
    rw [hcb]
    set t := (trackCurrentFrame E { s with cFrame := currentFrameOf E s i }).1 with ht
    have hts : t.state = s.state := (trackCurrentFrame_preserves E _).2.1
    have hni : ¬ t.state = TrackState.INITIALIZING := by rw [hts, h]; simp
    by_cases hlt : t.inliers_.length < E.MIN_INLIERS
    · rw [needNewFixedFrame_work_low E t hni hlt]
      exact hts.trans h
    · rw [needNewFixedFrame_work_high E t hni hlt]
      exact hts.trans h
  · intro h
    cases hl : i.tfLookup with
    | none =>
      have := msgsCallback_notinit_fail E s i h hl
      simp only [cycleState, this]
      rw [h]
      simp
    | some tr =>
      have := msgsCallback_notinit_ok E s i tr h hl
      simp only [cycleState, this]
      simp

/-- Witness for C2 at the concrete bootstrap transition cycle. -/
theorem bootstrapTransition_cycle_witness :
    stInit.state = TrackState.INITIALIZING ∧
    testEnv.MIN_INLIERS ≤ (cycleState testEnv stInit inpRich).inliers_.length ∧
    ((cycleState testEnv stInit inpRich).state = TrackState.WORKING ∧
      (cycleState testEnv stInit inpRich).mapPoints =
        stInit.mapPoints ++ [(stInit.fFrame, worldPointsOf testEnv stInit.fFrame)]) :=
  ⟨stInit_state, stInit_rich_high,
   (bootstrapTransition_cycle testEnv stInit inpRich).2.1 stInit_state stInit_rich_high⟩

/-- C3 counterexample: a fixed-frame replacement performed while
`INITIALIZING` (first conjuncts: the cycle's inlier count is below the
threshold and the fixed frame was replaced by the current frame) is
followed by a motion-estimation call that still supplies the warm-start
hint (`useExtrinsicGuess` true), because the `INITIALIZING` replacement
branch returns early without raising `reset_fixed_frame_`. -/
theorem warmStartSuppression_counterexample :
    (cycleState testEnv stInit inpSparse).inliers_.length < testEnv.MIN_INLIERS ∧
    (cycleState testEnv stInit inpSparse).fFrame =
      (cycleState testEnv stInit inpSparse).cFrame ∧
    Option.map SolveArgs.useGuess
      (cycleLog testEnv (cycleState testEnv stInit inpSparse) inpRich).solveArgs =
      some true := by
  simp [stInit, cycleState, cycleLog, msgsCallback, trackCurrentFrame, needNewFixedFrame,
    resetFixedFrameCheck, currentFrameOf, mkFrame, filterMatches, ratioVal, worldPointsOf,
    testEnv, initialTracking, emptyFrame, inpInit, inpRich, inpSparse]

/-- C3 amended: the warm-start hint is suppressed after a fixed-frame
replacement performed in the `WORKING` state (the post-initialization
policy block, where the reset flag is raised exactly on replacement); a
replacement performed in the `INITIALIZING` state leaves the reset flag
unchanged, so the following solve still supplies the hint whenever the
flag was clear; and every solver call uses the hint iff the reset flag
was clear when its cycle started. -/
theorem warmStartSuppression_amended (E : Env) (s : Tracking) (i : Input) :
    (s.state = TrackState.WORKING →
      ((cycleState E s i).inliers_.length < E.MIN_INLIERS ↔
        (cycleState E s i).resetFixedFrame = true)) ∧
    (s.state = TrackState.INITIALIZING →
      (cycleState E s i).inliers_.length < E.MIN_INLIERS →
      (cycleState E s i).resetFixedFrame = s.resetFixedFrame) ∧
    (¬ s.state = TrackState.NOT_INITIALIZED →
      ∀ a : SolveArgs, (cycleLog E s i).solveArgs = some a →
        a.useGuess = !s.resetFixedFrame) := by
  refine ⟨?_, ?_, ?_⟩
  · intro h
    have hns : ¬ s.state = TrackState.NOT_INITIALIZED := by rw [h]; simp
    have hcb : cycleState E s i =
        needNewFixedFrame E (trackCurrentFrame E { s with cFrame := currentFrameOf E s i }).1 := by
      simp only [cycleState, msgsCallback_post E s i hns]
    rw [hcb]
    set t := (trackCurrentFrame E { s with cFrame := currentFrameOf E s i }).1 with ht
    have hts : t.state = s.state := (trackCurrentFrame_preserves E _).2.1
    have hnInit : ¬ t.state = TrackState.INITIALIZING := by rw [hts, h]; simp
    by_cases hlt : t.inliers_.length < E.MIN_INLIERS
    · rw [needNewFixedFrame_work_low E t hnInit hlt]
      simpa using hlt
    · rw [needNewFixedFrame_work_high E t hnInit hlt]
      simpa using hlt
  · intro h hlt
    have hns : ¬ s.state = TrackState.NOT_INITIALIZED := by rw [h]; simp
    have hcb : cycleState E s i =
        needNewFixedFrame E (trackCurrentFrame E { s with cFrame := currentFrameOf E s i }).1 := by
      simp only [cycleState, msgsCallback_post E s i hns]
    rw [hcb] at hlt ⊢
    set t := (trackCurrentFrame E { s with cFrame := currentFrameOf E s i }).1 with ht
    have hts : t.state = s.state := (trackCurrentFrame_preserves E _).2.1
    rw [(needNewFixedFrame_preserves E t).1] at hlt
    rw [needNewFixedFrame_init_low E t (hts.trans h) hlt]
    exact (trackCurrentFrame_preserves E _).2.2.2.1
  · intro hns a ha
    have hcl : cycleLog E s i =
        { tfQueried := false
          solveArgs := (trackCurrentFrame E { s with cFrame := currentFrameOf E s i }).2
          graphCamera2Odom := none
          graphCameraMatrix := none } := by
      simp only [cycleLog, msgsCallback_post E s i hns]
    rw [hcl] at ha
    by_cases hc : (filterMatches (E.knnMatch ({ s with cFrame := currentFrameOf E s i} :
        Tracking).cFrame.leftDesc ({ s with cFrame := currentFrameOf E s i} :
        Tracking).fFrame.leftDesc 2)).length < E.MIN_INLIERS
    · rw [trackCurrentFrame_short E _ hc] at ha
      simp at ha
    · rw [trackCurrentFrame_go E _ hc] at ha
      simp only [Option.some.injEq] at ha
      rw [← ha]

/-- Witness for the amended C3 at a concrete `WORKING`-state replacement
cycle. -/
theorem warmStartSuppression_amended_witness :
    stWork.state = TrackState.WORKING ∧
    ((cycleState testEnv stWork inpSparse).inliers_.length < testEnv.MIN_INLIERS ↔
      (cycleState testEnv stWork inpSparse).resetFixedFrame = true) :=
  ⟨stWork_state, (warmStartSuppression_amended testEnv stWork inpSparse).1 stWork_state⟩

/-- C4: the source's match-filter loop is exactly the spec's ratio test —
bucket by bucket in current-frame descriptor order (hence no reordering
and no deduplication of fixed-frame indices), a nearest neighbour is
kept iff `d1 <= 0.9 * d2`, buckets with fewer than two candidates are
skipped — and the boundary case `d1 = 0.9 * d2` (9 against 10) is
accepted. -/
theorem ratioTest_characterization :
    (∀ knn : List (List DMatch), filterMatches knn = knn.filterMap specRatioAccept) ∧
    filterMatches [[⟨0, 0, 9⟩, ⟨1, 1, 10⟩]] = [⟨0, 0, 9⟩] := by
  constructor
  · intro knn
    induction knn with
    | nil => rfl
    | cons km rest ih =>
      cases km with
      | nil =>
        simp only [filterMatches, List.filterMap_cons, specRatioAccept]
        exact ih
      | cons a kt =>
        cases kt with
        | nil =>
          simp only [filterMatches, List.filterMap_cons, specRatioAccept]
          exact ih
        | cons b tl =>
          have hcond : (a.distance ≤ b.distance * ratioVal) =
              (a.distance ≤ 9 / 10 * b.distance) := by
            rw [ratioVal, mul_comm]
          simp only [filterMatches, List.filterMap_cons, specRatioAccept, hcond]
          split_ifs with hc
          · rw [ih]
          · exact ih
  · norm_num [filterMatches, ratioVal]

/-- C5: a cycle whose accepted correspondence count stays below
`MIN_INLIERS` never invokes the robust pose solve, records exactly zero
as the current frame's inlier count, and leaves the inlier vector empty
(the condition flows into the fixed-frame policy instead of being
surfaced as an error). -/
theorem sparseShortCircuit (E : Env) (s : Tracking) (i : Input)
    (hs : ¬ s.state = TrackState.NOT_INITIALIZED)
    (hm : (cycleState E s i).matches_.length < E.MIN_INLIERS) :
    (cycleLog E s i).solveArgs = none ∧
    (cycleState E s i).cFrame.inliers = 0 ∧
    (cycleState E s i).inliers_ = [] := by
  have hcb := msgsCallback_post E s i hs
  set t0 : Tracking := { s with cFrame := currentFrameOf E s i } with ht0
  have hcs : cycleState E s i = needNewFixedFrame E (trackCurrentFrame E t0).1 := by
    simp only [cycleState, hcb]
  have hcl : (cycleLog E s i).solveArgs = (trackCurrentFrame E t0).2 := by
    simp only [cycleLog, hcb]
  have hmm : (cycleState E s i).matches_ =
      filterMatches (E.knnMatch t0.cFrame.leftDesc t0.fFrame.leftDesc 2) := by
    rw [hcs, (needNewFixedFrame_preserves E _).2.1, trackCurrentFrame_matches]
  rw [hmm] at hm
  have hshort := trackCurrentFrame_short E t0 hm
  refine ⟨?_, ?_, ?_⟩
  · rw [hcl, hshort]
  · rw [hcs, (needNewFixedFrame_preserves E _).2.2.1, hshort]
  · rw [hcs, (needNewFixedFrame_preserves E _).1, hshort]

/-- Fixture fact: `stWork` is not in `NOT_INITIALIZED`. -/
theorem stWork_not_notinit : ¬ stWork.state = TrackState.NOT_INITIALIZED := by
  rw [stWork_state]
  simp

/-- Fixture fact: from `stWork`, the sparse input accepts fewer matches
than the threshold. -/
theorem stWork_sparse_matches_low :
    (cycleState testEnv stWork inpSparse).matches_.length < testEnv.MIN_INLIERS := by
  simp [stWork, stInit, cycleState, msgsCallback, trackCurrentFrame, needNewFixedFrame,
    resetFixedFrameCheck, currentFrameOf, mkFrame, filterMatches, ratioVal, worldPointsOf,
    testEnv, initialTracking, emptyFrame, inpInit, inpRich, inpSparse]

/-- Witness for C5 at the concrete sparse cycle. -/
theorem sparseShortCircuit_witness :
    (¬ stWork.state = TrackState.NOT_INITIALIZED) ∧
    (cycleState testEnv stWork inpSparse).matches_.length < testEnv.MIN_INLIERS ∧
    ((cycleLog testEnv stWork inpSparse).solveArgs = none ∧
      (cycleState testEnv stWork inpSparse).cFrame.inliers = 0 ∧
      (cycleState testEnv stWork inpSparse).inliers_ = []) :=
  ⟨stWork_not_notinit, stWork_sparse_matches_low,
   sparseShortCircuit testEnv stWork inpSparse stWork_not_notinit stWork_sparse_matches_low⟩

/-- C6: while `NOT_INITIALIZED`, a failed odometry-to-camera lookup leaves
the state `NOT_INITIALIZED`, retains no frame, sets no camera model or
matrix, grows no map and passes nothing to the graph — the input is
discarded and a later input retries initialization. -/
theorem initGating_lookupFailure (E : Env) (s : Tracking) (i : Input)
    (hs : s.state = TrackState.NOT_INITIALIZED)
    (hl : i.tfLookup = none) :
    (cycleState E s i).state = TrackState.NOT_INITIALIZED ∧
    (cycleState E s i).fFrame = s.fFrame ∧
    (cycleState E s i).cFrame = s.cFrame ∧
    (cycleState E s i).cameraModel = s.cameraModel ∧
    (cycleState E s i).cameraMatrix = s.cameraMatrix ∧
    (cycleState E s i).mapPoints = s.mapPoints ∧
    (cycleLog E s i).solveArgs = none ∧
    (cycleLog E s i).graphCamera2Odom = none ∧
    (cycleLog E s i).graphCameraMatrix = none := by
  have h := msgsCallback_notinit_fail E s i hs hl
  simp only [cycleState, cycleLog, h]
  simp [hs]

/-- Witness for C6 at the concrete failed-lookup input. -/
theorem initGating_lookupFailure_witness :
    initialTracking.state = TrackState.NOT_INITIALIZED ∧
    inpFail.tfLookup = none ∧
    ((cycleState testEnv initialTracking inpFail).state = TrackState.NOT_INITIALIZED ∧
      (cycleState testEnv initialTracking inpFail).fFrame = initialTracking.fFrame ∧
      (cycleState testEnv initialTracking inpFail).cFrame = initialTracking.cFrame ∧
      (cycleState testEnv initialTracking inpFail).cameraModel = initialTracking.cameraModel ∧
      (cycleState testEnv initialTracking inpFail).cameraMatrix = initialTracking.cameraMatrix ∧
      (cycleState testEnv initialTracking inpFail).mapPoints = initialTracking.mapPoints ∧
      (cycleLog testEnv initialTracking inpFail).solveArgs = none ∧
      (cycleLog testEnv initialTracking inpFail).graphCamera2Odom = none ∧
      (cycleLog testEnv initialTracking inpFail).graphCameraMatrix = none) :=
  ⟨rfl, rfl, initGating_lookupFailure testEnv initialTracking inpFail rfl rfl⟩

/-- C7: the camera model, camera matrix and session transform are
assigned exactly once, on the first message set whose lookup succeeds
while `NOT_INITIALIZED` (failed attempts assign none of them), and no
later cycle modifies them or queries the transform tree again — once the
state leaves `NOT_INITIALIZED` it never returns. -/
theorem sessionCalibration_setOnce (E : Env) (s : Tracking) (i : Input) :
    (¬ s.state = TrackState.NOT_INITIALIZED →
      (cycleState E s i).cameraModel = s.cameraModel ∧
      (cycleState E s i).cameraMatrix = s.cameraMatrix ∧
      (cycleState E s i).odom2camera = s.odom2camera ∧
      (cycleLog E s i).tfQueried = false ∧
      ¬ (cycleState E s i).state = TrackState.NOT_INITIALIZED) ∧
    (s.state = TrackState.NOT_INITIALIZED → i.tfLookup = none →
      (cycleState E s i).cameraModel = s.cameraModel ∧
      (cycleState E s i).cameraMatrix = s.cameraMatrix ∧
      (cycleState E s i).state = TrackState.NOT_INITIALIZED ∧
      (cycleLog E s i).tfQueried = true) ∧
    (s.state = TrackState.NOT_INITIALIZED → ∀ tr : Transform, i.tfLookup = some tr →
      (cycleState E s i).odom2camera = tr ∧
      (cycleState E s i).cameraModel = (E.getCameraModel i.lInfo i.rInfo).1 ∧
      (cycleState E s i).cameraMatrix = (E.getCameraModel i.lInfo i.rInfo).2 ∧
      (cycleState E s i).state = TrackState.INITIALIZING ∧
      (cycleLog E s i).tfQueried = true) := by
  refine ⟨?_, ?_, ?_⟩
  · intro hns
    have hcb := msgsCallback_post E s i hns
    have hcs : cycleState E s i =
        needNewFixedFrame E (trackCurrentFrame E { s with cFrame := currentFrameOf E s i }).1 := by
      simp only [cycleState, hcb]
    set t := (trackCurrentFrame E { s with cFrame := currentFrameOf E s i }).1 with ht
    have hts : t.state = s.state := (trackCurrentFrame_preserves E _).2.1
    refine ⟨?_, ?_, ?_, ?_, ?_⟩
    · rw [hcs, (needNewFixedFrame_preserves E t).2.2.2.1]
      exact (trackCurrentFrame_preserves E _).2.2.2.2.1
    · rw [hcs, (needNewFixedFrame_preserves E t).2.2.2.2.1]
      exact (trackCurrentFrame_preserves E _).2.2.2.2.2.1
    · rw [hcs, (needNewFixedFrame_preserves E t).2.2.2.2.2.1]
      exact (trackCurrentFrame_preserves E _).2.2.2.2.2.2.1
    · simp only [cycleLog, hcb]
    · rw [hcs]
      rcases needNewFixedFrame_state E t with h | h
      · rw [h, hts]
        exact hns
      · rw [h]
        simp
  · intro hs hl
    have h := msgsCallback_notinit_fail E s i hs hl
    simp only [cycleState, cycleLog, h]
    simp [hs]
  · intro hs tr hl
    have h := msgsCallback_notinit_ok E s i tr hs hl
    simp only [cycleState, cycleLog, h]
    simp

/-- Witness for C7 at the concrete successful initialization input. -/
theorem sessionCalibration_setOnce_witness :
    initialTracking.state = TrackState.NOT_INITIALIZED ∧
    inpInit.tfLookup = some 7 ∧
    ((cycleState testEnv initialTracking inpInit).odom2camera = 7 ∧
      (cycleState testEnv initialTracking inpInit).cameraModel =
        (testEnv.getCameraModel inpInit.lInfo inpInit.rInfo).1 ∧
      (cycleState testEnv initialTracking inpInit).cameraMatrix =
        (testEnv.getCameraModel inpInit.lInfo inpInit.rInfo).2 ∧
      (cycleState testEnv initialTracking inpInit).state = TrackState.INITIALIZING ∧
      (cycleLog testEnv initialTracking inpInit).tfQueried = true) :=
  ⟨rfl, rfl,
   (sessionCalibration_setOnce testEnv initialTracking inpInit).2.2 rfl 7 rfl⟩

/-- C8: every robust solve regresses the matched 3-D points of the
current frame (object points) against the matched 2-D keypoints of the
fixed frame (image points) — never the reverse — with the session camera
matrix, exactly 100 candidate iterations, a 1.3-pixel reprojection
threshold and the `MAX_INLIERS` cap, and the current frame's inlier
count is set to the size of the returned inlier set. -/
theorem solveCall_arguments (E : Env) (s : Tracking) (i : Input)
    (hs : ¬ s.state = TrackState.NOT_INITIALIZED)
    (a : SolveArgs) (ha : (cycleLog E s i).solveArgs = some a) :
    a.objectPoints = (cycleState E s i).matches_.map
        (fun m => (currentFrameOf E s i).cameraPoints.getD m.queryIdx (0, 0, 0)) ∧
    a.imagePoints = (cycleState E s i).matches_.map
        (fun m => s.fFrame.leftKp.getD m.trainIdx (0, 0)) ∧
    a.cameraMatrix = s.cameraMatrix ∧
    a.iterationsCount = 100 ∧
    a.reprojectionError = 13 / 10 ∧
    a.minInliersCount = E.MAX_INLIERS ∧
    (cycleState E s i).cFrame.inliers = (cycleState E s i).inliers_.length := by
  have hcb := msgsCallback_post E s i hs
  set t0 : Tracking := { s with cFrame := currentFrameOf E s i } with ht0
  have hcl : (cycleLog E s i).solveArgs = (trackCurrentFrame E t0).2 := by
    simp only [cycleLog, hcb]
  have hcs : cycleState E s i = needNewFixedFrame E (trackCurrentFrame E t0).1 := by
    simp only [cycleState, hcb]
  have hmm : (cycleState E s i).matches_ =
      filterMatches (E.knnMatch t0.cFrame.leftDesc t0.fFrame.leftDesc 2) := by
    rw [hcs, (needNewFixedFrame_preserves E _).2.1, trackCurrentFrame_matches]
  rw [hcl] at ha
  by_cases hc : (filterMatches (E.knnMatch t0.cFrame.leftDesc t0.fFrame.leftDesc 2)).length <
      E.MIN_INLIERS
  · rw [trackCurrentFrame_short E t0 hc] at ha
    simp at ha
  · have hgo := trackCurrentFrame_go E t0 hc
    rw [hgo] at ha
    simp only [Option.some.injEq] at ha
    rw [← ha]
    refine ⟨?_, ?_, rfl, rfl, rfl, rfl, ?_⟩
    · rw [hmm]
    · rw [hmm]
    · rw [hcs, (needNewFixedFrame_preserves E _).2.2.1,
        (needNewFixedFrame_preserves E _).1, hgo]

/-- Fixture fact: from `stWork`, the rich input runs the solver with the
expected argument record. -/
theorem stWork_rich_solve :
    (cycleLog testEnv stWork inpRich).solveArgs = some
      { objectPoints := [(3, 4, 5)]
        imagePoints := [(1, 2)]
        cameraMatrix := [[1, 0], [0, 1]]
        useGuess := true
        rvecIn := (1, 1, 1)
        tvecIn := (2, 2, 2)
        iterationsCount := 100
        reprojectionError := 13 / 10
        minInliersCount := 50 } := by
  simp [stWork, stInit, cycleState, cycleLog, msgsCallback, trackCurrentFrame,
    needNewFixedFrame, resetFixedFrameCheck, currentFrameOf, mkFrame, filterMatches,
    ratioVal, worldPointsOf, testEnv, initialTracking, emptyFrame, inpInit, inpRich]

/-- Witness for C8 at the concrete solver-running cycle. -/
theorem solveCall_arguments_witness :
    (¬ stWork.state = TrackState.NOT_INITIALIZED) ∧
    ((cycleLog testEnv stWork inpRich).solveArgs = some
      { objectPoints := [(3, 4, 5)]
        imagePoints := [(1, 2)]
        cameraMatrix := [[1, 0], [0, 1]]
        useGuess := true
        rvecIn := (1, 1, 1)
        tvecIn := (2, 2, 2)
        iterationsCount := 100
        reprojectionError := 13 / 10
        minInliersCount := 50 }) ∧
    ((cycleState testEnv stWork inpRich).cFrame.inliers =
      (cycleState testEnv stWork inpRich).inliers_.length) :=
  ⟨stWork_not_notinit, stWork_rich_solve,
   (solveCall_arguments testEnv stWork inpRich stWork_not_notinit _
      stWork_rich_solve).2.2.2.2.2.2⟩

/-- C9: on the single cycle that moves `INITIALIZING` to `WORKING`, map
growth is performed on the retained fixed frame — the old reference,
kept because the threshold was met — while the cycle's current frame
does not become the reference and contributes no points. -/
theorem transitionMapGrowth_retainedFrame (E : Env) (s : Tracking) (i : Input)
    (hs : s.state = TrackState.INITIALIZING)
    (hge : E.MIN_INLIERS ≤ (cycleState E s i).inliers_.length) :
    (cycleState E s i).state = TrackState.WORKING ∧
    (cycleState E s i).fFrame = s.fFrame ∧
    (cycleState E s i).mapPoints = s.mapPoints ++ [(s.fFrame, worldPointsOf E s.fFrame)] := by
  have hns : ¬ s.state = TrackState.NOT_INITIALIZED := by rw [hs]; simp
  have hcb : cycleState E s i =
      needNewFixedFrame E (trackCurrentFrame E { s with cFrame := currentFrameOf E s i }).1 := by
    simp only [cycleState, msgsCallback_post E s i hns]
  rw [hcb] at hge ⊢
  set t := (trackCurrentFrame E { s with cFrame := currentFrameOf E s i }).1 with ht
  have hts : t.state = s.state := (trackCurrentFrame_preserves E _).2.1
  have htf : t.fFrame = s.fFrame := (trackCurrentFrame_preserves E _).1
  have htm : t.mapPoints = s.mapPoints := (trackCurrentFrame_preserves E _).2.2.1
  rw [(needNewFixedFrame_preserves E t).1] at hge
  rw [needNewFixedFrame_init_high E t (hts.trans hs) (Nat.not_lt.mpr hge)]
  refine ⟨rfl, htf, ?_⟩
  show t.mapPoints ++ [(t.fFrame, worldPointsOf E t.fFrame)] = _
  rw [htm, htf]

/-- Witness for C9 at the concrete transition cycle. -/
theorem transitionMapGrowth_retainedFrame_witness :
    stInit.state = TrackState.INITIALIZING ∧
    testEnv.MIN_INLIERS ≤ (cycleState testEnv stInit inpRich).inliers_.length ∧
    ((cycleState testEnv stInit inpRich).state = TrackState.WORKING ∧
      (cycleState testEnv stInit inpRich).fFrame = stInit.fFrame ∧
      (cycleState testEnv stInit inpRich).mapPoints =
        stInit.mapPoints ++ [(stInit.fFrame, worldPointsOf testEnv stInit.fFrame)]) :=
  ⟨stInit_state, stInit_rich_high,
   transitionMapGrowth_retainedFrame testEnv stInit inpRich stInit_state stInit_rich_high⟩

/-- C10: a short-circuited cycle (accepted matches below the threshold)
leaves the stored pose estimate `rvec_`/`tvec_` untouched, and whenever
the solver does run it receives exactly the stored pose as its
warm-start buffers and overwrites them with its own output — so the hint
a later solve sees is the pose of the most recent cycle that actually
ran the solver. -/
theorem shortCircuitPreservesPose (E : Env) (s : Tracking) (i : Input)
    (hs : ¬ s.state = TrackState.NOT_INITIALIZED) :
    ((cycleState E s i).matches_.length < E.MIN_INLIERS →
      (cycleState E s i).rvec = s.rvec ∧ (cycleState E s i).tvec = s.tvec) ∧
    (∀ a : SolveArgs, (cycleLog E s i).solveArgs = some a →
      a.rvecIn = s.rvec ∧ a.tvecIn = s.tvec ∧
      (cycleState E s i).rvec = (E.solvePnP a).1 ∧
      (cycleState E s i).tvec = (E.solvePnP a).2.1) := by
  have hcb := msgsCallback_post E s i hs
  set t0 : Tracking := { s with cFrame := currentFrameOf E s i } with ht0
  have hcs : cycleState E s i = needNewFixedFrame E (trackCurrentFrame E t0).1 := by
    simp only [cycleState, hcb]
  have hcl : (cycleLog E s i).solveArgs = (trackCurrentFrame E t0).2 := by
    simp only [cycleLog, hcb]
  have hmm : (cycleState E s i).matches_ =
      filterMatches (E.knnMatch t0.cFrame.leftDesc t0.fFrame.leftDesc 2) := by
    rw [hcs, (needNewFixedFrame_preserves E _).2.1, trackCurrentFrame_matches]
  constructor
  · intro hm
    rw [hmm] at hm
    have hshort := trackCurrentFrame_short E t0 hm
    constructor
    · rw [hcs, (needNewFixedFrame_preserves E _).2.2.2.2.2.2.1, hshort]
    · rw [hcs, (needNewFixedFrame_preserves E _).2.2.2.2.2.2.2, hshort]
  · intro a ha
    rw [hcl] at ha
    by_cases hc : (filterMatches (E.knnMatch t0.cFrame.leftDesc t0.fFrame.leftDesc 2)).length <
        E.MIN_INLIERS
    · rw [trackCurrentFrame_short E t0 hc] at ha
      simp at ha
    · have hgo := trackCurrentFrame_go E t0 hc
      rw [hgo] at ha
      simp only [Option.some.injEq] at ha
      rw [← ha]
      refine ⟨rfl, rfl, ?_, ?_⟩
      · rw [hcs, (needNewFixedFrame_preserves E _).2.2.2.2.2.2.1, hgo]
      · rw [hcs, (needNewFixedFrame_preserves E _).2.2.2.2.2.2.2, hgo]

/-- Witness for C10 at the concrete short-circuited cycle. -/
theorem shortCircuitPreservesPose_witness :
    (¬ stWork.state = TrackState.NOT_INITIALIZED) ∧
    (cycleState testEnv stWork inpSparse).matches_.length < testEnv.MIN_INLIERS ∧
    ((cycleState testEnv stWork inpSparse).rvec = stWork.rvec ∧
      (cycleState testEnv stWork inpSparse).tvec = stWork.tvec) :=
  ⟨stWork_not_notinit, stWork_sparse_matches_low,
   (shortCircuitPreservesPose testEnv stWork inpSparse stWork_not_notinit).1
     stWork_sparse_matches_low⟩

end StereoSlam
